import Mathlib

/-!
Verification of the cancellation/task-tracking mechanism of the
cost-optimization dashboard (Janardhanyelusuri/demo3).

The backend `TaskManager` (`backend/app/core/task_manager.py`) is embedded
from the code excerpts in `src/COMPLETE_SOLUTION_SUMMARY.md` (lines 62-93)
and `src/FINAL_SOLUTION_RESET_BUTTON.md` (lines 147-163).  Python's uuid4
task identifiers are modelled as a fresh-natural-number supply, the
`_active_tasks` dict as an association list from id to task entry, and the
`_pending_cancel_projects` set as a duplicate-free list of project ids.
-/

namespace Demo3

/-- One entry of the `_active_tasks` dict: the task id (uuid modelled as a
fresh natural number), the owning project id from the task metadata, and the
status field (`true` stands for status `cancelled`, `false` for `active`). -/
structure TaskEntry where
  id : Nat
  project : String
  cancelled : Bool
deriving Repr, DecidableEq

/-- Process-wide state of the task registry: the `_active_tasks` dict, the
`_pending_cancel_projects` set, and the supply of fresh task ids (uuid4 in
the source never collides, which the supply models by counting up). -/
structure TMState where
  tasks : List TaskEntry
  pending : List String
  nextId : Nat
deriving Repr, DecidableEq

/-- The registry at process start: both maps empty. -/
def TMState.init : TMState := ⟨[], [], 0⟩

/-- The tasks of project `p` whose status is still `active`; the source's
cancel loop iterates exactly these entries. -/
def activeTasksFor (p : String) (s : TMState) : List TaskEntry :=
  s.tasks.filter (fun t => t.project == p && !t.cancelled)

/-- `create_task` (task_manager.py, excerpt in src/COMPLETE_SOLUTION_SUMMARY.md
lines 77-92): allocate a fresh task id, insert the task, and if the project
has a pending cancellation, mark the new task cancelled immediately and
discard the pending entry.  Returns the new task id with the new state. -/
def create_task (project_id : String) (s : TMState) : Nat × TMState :=
  let task_id := s.nextId
  let pendingHit := s.pending.contains project_id
  let entry : TaskEntry := ⟨task_id, project_id, pendingHit⟩
  let pending' := if pendingHit then s.pending.filter (fun q => q != project_id)
                  else s.pending
  (task_id, ⟨entry :: s.tasks, pending', s.nextId + 1⟩)

/-- Modelled from the spec: the marking loop of `cancel_tasks_by_project` is
elided in the src excerpt (`# ... cancel existing tasks ...`); following the
spec's contract it "marks all active tasks for the project as cancelled" and
counts them.  The `if cancelled_count == 0` branch adding the project to
`_pending_cancel_projects` is verbatim from src/COMPLETE_SOLUTION_SUMMARY.md
lines 66-75 (Python set `add` is idempotent, hence the duplicate guard). -/
def cancel_tasks_by_project (project_id : String) (s : TMState) : Nat × TMState :=
  let cancelled_count := (activeTasksFor project_id s).length
  let tasks' := s.tasks.map (fun t =>
    if t.project == project_id && !t.cancelled then { t with cancelled := true } else t)
  let pending' := if cancelled_count == 0 then
      (if s.pending.contains project_id then s.pending else project_id :: s.pending)
    else s.pending
  (cancelled_count, ⟨tasks', pending', s.nextId⟩)

/-- Point-in-time read of a task's cancelled flag in a task list. -/
def lookupCancelled (l : List TaskEntry) (tid : Nat) : Bool :=
  (l.find? (fun t => t.id == tid)).any (fun t => t.cancelled)

/-- `is_cancelled(task_id)` (task_manager.py): point-in-time read of a
task's flag, `false` for an unknown id. -/
def is_cancelled (task_id : Nat) (s : TMState) : Bool :=
  lookupCancelled s.tasks task_id

/-- Modelled from the spec: `POST /llm/tasks/{task_id}/cancel` "cancels one
task by id"; the handler body is absent from src, so it marks the one task
with this id cancelled and leaves everything else unchanged. -/
def cancel_task (task_id : Nat) (s : TMState) : TMState :=
  ⟨s.tasks.map (fun t => if t.id == task_id then { t with cancelled := true } else t),
   s.pending, s.nextId⟩

/-- The registry operations a client can drive: `create_task`,
`cancel_tasks_by_project` and the single-task cancel. -/
inductive TMOp
  | create (project_id : String)
  | cancelProject (project_id : String)
  | cancelTask (task_id : Nat)
deriving Repr, DecidableEq

/-- Apply one registry operation, discarding the returned value. -/
def applyOp (s : TMState) : TMOp → TMState
  | .create p => (create_task p s).2
  | .cancelProject p => (cancel_tasks_by_project p s).2
  | .cancelTask tid => cancel_task tid s

/-- Apply a sequence of registry operations from left to right. -/
def applyOps (s : TMState) (ops : List TMOp) : TMState :=
  ops.foldl applyOp s

/-- Well-formedness of a registry state: every allocated task id is below the
fresh-id supply, so a newly created task can never collide with an existing
one (uuid4 uniqueness in the source). -/
def TMState.wf (s : TMState) : Bool :=
  s.tasks.all (fun t => t.id < s.nextId)

/-- `POST /cancel-tasks/{project_id}` response body
(src/unnamed/part_002 lines 67-72): the four JSON fields returned by
`cancel_tasks_no_auth`. -/
structure CancelResponse where
  status : String
  message : String
  project_id : String
  cancelled_count : Nat
deriving Repr, DecidableEq

/-- `cancel_tasks_no_auth` (backend/app/main.py, src/unnamed/part_002 lines
43-72): the unauthenticated fast cancel endpoint.  It calls
`cancel_tasks_by_project` and answers with FastAPI's default HTTP status 200
and the four-field body. -/
def cancel_tasks_no_auth (project_id : String) (s : TMState) :
    Nat × CancelResponse × TMState :=
  let r := cancel_tasks_by_project project_id s
  (200,
   { status := "success"
     message := "Cancelled " ++ toString r.1 ++ " task(s) for project " ++ project_id
     project_id := project_id
     cancelled_count := r.1 },
   r.2)

/-! ### Cancellation-aware work loop

The Python bodies of `run_llm_vm_all_resources` and `run_llm_analysis`
(backend/app/ingestion/azure/llm_data_fetch.py) are not under src; the spec's
section 4.2 together with the excerpts and log formats in the src markdown
fixes their behaviour, which the definitions below follow.  The expensive
external recommendation call is a parameter `call`; a resource is an opaque
string; a recommendation payload is an opaque token. -/

/-- A recommendation payload, opaque to all the logic verified here. -/
abbrev Recommendation := Nat

/-- Result of the multi-resource work loop: collected recommendations, the
count of processed resources, the list length, the number of external
recommendation calls made, and the log line the loop reports. -/
structure LoopResult where
  results : List Recommendation
  processed : Nat
  total : Nat
  callsMade : Nat
  report : String
deriving Repr, DecidableEq

/-- Modelled from the spec: the loop body of `run_llm_vm_all_resources` is
absent from src; per spec section 4.2 it checks `is_cancelled` before each
resource, stopping and reporting partial progress on true, otherwise performs
the external call, logging and skipping the resource on error and recording
the result on success.  `cancelledAt i` is the cancellation flag's value at
the check preceding the i-th resource; the report strings are the log lines
shown in the src markdown. -/
def runLoopAux (cancelledAt : Nat → Bool) (call : String → Except String Recommendation)
    (total : Nat) (rs : List String) (i : Nat) (calls : Nat)
    (acc : List Recommendation) : LoopResult :=
  match rs with
  | [] => ⟨acc.reverse, i, total, calls,
      "Completed processing " ++ toString i ++ "/" ++ toString total ++ " VMs successfully"⟩
  | r :: rest =>
    if cancelledAt i then
      ⟨acc.reverse, i, total, calls, "Processed " ++ toString i ++ "/" ++ toString total⟩
    else
      match call r with
      | .ok rcmd => runLoopAux cancelledAt call total rest (i + 1) (calls + 1) (rcmd :: acc)
      | .error _ => runLoopAux cancelledAt call total rest (i + 1) (calls + 1) acc

/-- Modelled from the spec: `run_llm_vm_all_resources` runs the work loop
over the whole fetched resource list. -/
def run_llm_vm_all_resources (cancelledAt : Nat → Bool)
    (call : String → Except String Recommendation) (resources : List String) : LoopResult :=
  runLoopAux cancelledAt call resources.length resources 0 0 []

/-- The shape of an analysis response: Python `None`, a single recommendation
dict, or a list of recommendation dicts. -/
inductive AnalysisResult
  | resultNone
  | single (r : Recommendation)
  | multiple (rs : List Recommendation)
deriving Repr, DecidableEq

/-- Modelled from the spec: the `run_llm_analysis` dispatch
(src/unnamed/part_002 lines 529-532): a supplied resource_id selects the
single-resource path `run_llm_vm` — two cancellation checks around one
external call, returning None when cancelled
(src/FINAL_SOLUTION_RESET_BUTTON.md lines 122-140), an exception of the
unguarded call propagating; no resource_id selects the all-resources loop,
whose collected results come back as an array. -/
def run_llm_analysis (cancelledAt : Nat → Bool)
    (call : String → Except String Recommendation)
    (resource_id : Option String) (resources : List String) :
    Except String AnalysisResult :=
  match resource_id with
  | some rid =>
    if cancelledAt 0 then Except.ok AnalysisResult.resultNone
    else if cancelledAt 1 then Except.ok AnalysisResult.resultNone
    else
      match call rid with
      | .ok r => Except.ok (AnalysisResult.single r)
      | .error e => Except.error e
  | none =>
    Except.ok (AnalysisResult.multiple
      (run_llm_vm_all_resources cancelledAt call resources).results)

/-! ### Frontend page model

Embedding of AzureRecommendationsPage
(src/frontend/src/app/.../azuredashboard/recommendations/page.tsx). -/

/-- `RecommendationFilters` (frontend/src/types/recommendations.ts as used by
the page): the filter-bar state.  Dates are opaque tokens. -/
structure Filters where
  resourceType : String
  resourceId : Option String
  resourceIdEnabled : Bool
  dateRangePreset : String
  startDate : Option Nat
  endDate : Option Nat
deriving Repr, DecidableEq

/-- The initial/reset filter value built in page.tsx lines 37-44 and
166-173: the resource type defaults to the first resource option. -/
def defaultFilters (resourceOptions : List String) : Filters :=
  { resourceType := resourceOptions.headD ""
    resourceId := none
    resourceIdEnabled := false
    dateRangePreset := "last_month"
    startDate := none
    endDate := none }

/-- The React state and refs of the page (page.tsx lines 22-44):
recommendations, carousel index, loading and error state, the transition
latch, the generation counter ref and the current-task ref. -/
structure UIState where
  recommendations : List Recommendation
  currentIndex : Nat
  isLoading : Bool
  error : Option String
  isTransitioning : Bool
  generation : Nat
  currentTaskId : Option String
  filters : Filters
deriving Repr, DecidableEq

/-- The payload `fetchRecommendationsWithFilters` resolves with. -/
structure FetchResult where
  recommendations : List Recommendation
  taskId : Option String
deriving Repr, DecidableEq

/-- The continuation of handleFetch after
`await fetchRecommendationsWithFilters` (page.tsx lines 106-145), as a
function of the generation captured before the await, the settled promise,
and the state at response time.  The stale-generation guards and the
`finally` clause are translated as written: an early return still runs the
finally block, which calls `setIsLoading(false)` only when the generation
still matches. -/
def handleFetchResponse (thisGeneration : Nat) (result : Except String FetchResult)
    (ui : UIState) : UIState :=
  match result with
  | .ok r =>
    if ui.generation != thisGeneration then ui
    else
      let ui1 := match r.taskId with
        | some tid => { ui with currentTaskId := some tid }
        | none => ui
      let ui2 := { ui1 with recommendations := r.recommendations }
      { ui2 with isLoading := false }
  | .error e =>
    if ui.generation != thisGeneration then ui
    else
      let ui1 := { ui with error := some e }
      { ui1 with isLoading := false }

/-- Outcome of the raw `fetch` in cancelBackendTask (page.tsx lines 54-59):
an HTTP response carrying a status code, or a rejected promise (network
failure). -/
inductive FetchOutcome
  | response (status : Nat)
  | networkError (msg : String)
deriving Repr, DecidableEq

/-- The try block of cancelBackendTask (page.tsx lines 51-69): a response
outside 200-299 (`!response.ok`) raises "HTTP error! status: ...", a
rejected fetch raises its own error. -/
def tryCancel (o : FetchOutcome) : Except String Unit :=
  match o with
  | .response status =>
    if status < 200 || 300 ≤ status then
      Except.error ("HTTP error! status: " ++ toString status)
    else Except.ok ()
  | .networkError msg => Except.error msg

/-- cancelBackendTask (page.tsx lines 47-74): the catch block logs the error
and deliberately does not rethrow, so the call always returns normally; the
returned value is the logged error, if any. -/
def cancelBackendTask (o : FetchOutcome) : Option String :=
  match tryCancel o with
  | Except.ok _ => none
  | Except.error e => some e

/-- handleReset (page.tsx lines 149-181) given the outcome of the awaited
cancel request: bump the generation, stop the loading indicator, await
cancelBackendTask (which cannot throw), clear the task ref, then reset the
filters and clear all result state. -/
def handleReset (o : FetchOutcome) (resourceOptions : List String)
    (projectId : String) (ui : UIState) : UIState :=
  let ui1 := { ui with generation := ui.generation + 1, isLoading := false }
  let ui2 :=
    if ui1.currentTaskId.isSome || projectId != "" then
      let _logged := cancelBackendTask o
      { ui1 with currentTaskId := none }
    else ui1
  { ui2 with
    filters := defaultFilters resourceOptions
    recommendations := []
    currentIndex := 0
    error := none
    isTransitioning := false }

/-- One carousel navigation action: the Previous/Next buttons and a
pagination-dot click (page.tsx lines 184-210). -/
inductive NavOp
  | previous
  | next
  | dot (i : Nat)
deriving Repr, DecidableEq

/-- The index update of one navigation action: `Math.max(0, prev - 1)`
coincides with truncated Nat subtraction, Next clamps to the last index, and
`handleDotClick` keeps the index when the clicked dot is the current one.
The isTransitioning latch only delays or drops an update and never produces
a different index, so it is left out of the step. -/
def navStep (len : Nat) (idx : Nat) : NavOp → Nat
  | .previous => idx - 1
  | .next => min (len - 1) (idx + 1)
  | .dot i => if i == idx then idx else i

/-- Apply a sequence of carousel navigation actions to the index. -/
def applyNavOps (len : Nat) (idx : Nat) (ops : List NavOp) : Nat :=
  ops.foldl (navStep len) idx

/-- A navigation action the rendered page can produce: pagination dots are
rendered one per existing recommendation (page.tsx lines 312-328), so a dot
click always carries the index of an existing recommendation. -/
def navOpValid (len : Nat) : NavOp → Bool
  | .dot i => decide (i < len)
  | _ => true

/-- A concrete page state used by the witnesses. -/
def sampleUI : UIState :=
  { recommendations := [5, 9]
    currentIndex := 1
    isLoading := true
    error := none
    isTransitioning := false
    generation := 2
    currentTaskId := some "abc"
    filters := defaultFilters ["Virtual Machine"] }

/-! ### Registry lemmas -/

/-- A lookup skips a head entry whose id differs. -/
lemma lookupCancelled_cons_ne (a : TaskEntry) (l : List TaskEntry) (tid : Nat)
    (h : a.id ≠ tid) : lookupCancelled (a :: l) tid = lookupCancelled l tid := by
  have hb : (a.id == tid) = false := by simpa using h
  simp [lookupCancelled, List.find?_cons, hb]

/-- A lookup reads the head entry when the id matches. -/
lemma lookupCancelled_cons_eq (a : TaskEntry) (l : List TaskEntry) (tid : Nat)
    (h : a.id = tid) : lookupCancelled (a :: l) tid = a.cancelled := by
  have hb : (a.id == tid) = true := by simpa using h
  simp [lookupCancelled, List.find?_cons, hb]

/-- A cancelled-flag lookup survives any entrywise rewrite that keeps ids and
never turns a cancelled task back to active. -/
lemma lookupCancelled_map (f : TaskEntry → TaskEntry)
    (hid : ∀ t, (f t).id = t.id)
    (hc : ∀ t, t.cancelled = true → (f t).cancelled = true)
    (l : List TaskEntry) (tid : Nat)
    (h : lookupCancelled l tid = true) : lookupCancelled (l.map f) tid = true := by
  induction l with
  | nil => simp [lookupCancelled] at h
  | cons a l ih =>
    by_cases hp : a.id = tid
    · rw [lookupCancelled_cons_eq a l tid hp] at h
      rw [List.map_cons, lookupCancelled_cons_eq (f a) (l.map f) tid (by rw [hid]; exact hp)]
      exact hc a h
    · rw [lookupCancelled_cons_ne a l tid hp] at h
      rw [List.map_cons, lookupCancelled_cons_ne (f a) (l.map f) tid (by rw [hid]; exact hp)]
      exact ih h

/-- In a well-formed state a task with a readable cancelled flag has an id
below the fresh-id supply. -/
lemma lookupCancelled_lt_of_wf (s : TMState) (tid : Nat)
    (hwf : s.wf = true) (h : is_cancelled tid s = true) : tid < s.nextId := by
  rw [is_cancelled, lookupCancelled] at h
  cases hfind : s.tasks.find? (fun t => t.id == tid) with
  | none => rw [hfind] at h; simp at h
  | some t =>
    have hmem := List.mem_of_find?_eq_some hfind
    have hid : t.id = tid := by simpa using List.find?_some hfind
    have hlt := (List.all_eq_true.mp hwf) t hmem
    simp only [decide_eq_true_eq] at hlt
    omega

/-- Entrywise rewrites that keep ids keep well-formedness of the task list. -/
lemma all_lt_map (f : TaskEntry → TaskEntry) (hid : ∀ t, (f t).id = t.id)
    (l : List TaskEntry) (n : Nat) (h : l.all (fun t => t.id < n) = true) :
    (l.map f).all (fun t => t.id < n) = true := by
  rw [List.all_eq_true] at h ⊢
  intro x hx
  rcases List.mem_map.mp hx with ⟨t, ht, rfl⟩
  simpa [hid] using h t ht

/-- The per-entry marking step of `cancel_tasks_by_project` keeps the id. -/
lemma markProject_id (p : String) (t : TaskEntry) :
    (if t.project == p && !t.cancelled then { t with cancelled := true } else t).id
      = t.id := by
  split <;> rfl

/-- The per-entry marking step of `cancel_tasks_by_project` never unsets the
cancelled flag. -/
lemma markProject_mono (p : String) (t : TaskEntry) (ht : t.cancelled = true) :
    (if t.project == p && !t.cancelled then { t with cancelled := true } else t).cancelled
      = true := by
  split
  · rfl
  · exact ht

/-- The per-entry marking step of `cancel_task` keeps the id. -/
lemma markTask_id (tid0 : Nat) (t : TaskEntry) :
    (if t.id == tid0 then { t with cancelled := true } else t).id = t.id := by
  split <;> rfl

/-- The per-entry marking step of `cancel_task` never unsets the flag. -/
lemma markTask_mono (tid0 : Nat) (t : TaskEntry) (ht : t.cancelled = true) :
    (if t.id == tid0 then { t with cancelled := true } else t).cancelled = true := by
  split
  · rfl
  · exact ht

/-- Every registry operation preserves well-formedness. -/
lemma applyOp_preserves_wf (op : TMOp) (s : TMState) (hwf : s.wf = true) :
    (applyOp s op).wf = true := by
  cases op with
  | create p =>
    simp only [applyOp, create_task, TMState.wf, List.all_cons, Bool.and_eq_true,
      decide_eq_true_eq, List.all_eq_true] at hwf ⊢
    exact ⟨Nat.lt_succ_self _, fun t ht => Nat.lt_succ_of_lt (hwf t ht)⟩
  | cancelProject p =>
    simp only [applyOp, cancel_tasks_by_project, TMState.wf] at hwf ⊢
    exact all_lt_map _ (markProject_id p) s.tasks s.nextId hwf
  | cancelTask tid =>
    simp only [applyOp, cancel_task, TMState.wf] at hwf ⊢
    exact all_lt_map _ (markTask_id tid) s.tasks s.nextId hwf

/-- Every registry operation preserves a task's cancelled flag once true. -/
lemma applyOp_preserves_cancelled (op : TMOp) (s : TMState) (tid : Nat)
    (hwf : s.wf = true) (h : is_cancelled tid s = true) :
    is_cancelled tid (applyOp s op) = true := by
  cases op with
  | create p =>
    have hlt : tid < s.nextId := lookupCancelled_lt_of_wf s tid hwf h
    rw [is_cancelled] at h ⊢
    show lookupCancelled
      ((⟨s.nextId, p, s.pending.contains p⟩ : TaskEntry) :: s.tasks) tid = true
    rw [lookupCancelled_cons_ne _ _ _ (show s.nextId ≠ tid by omega)]
    exact h
  | cancelProject p =>
    simp only [applyOp, cancel_tasks_by_project, is_cancelled] at h ⊢
    exact lookupCancelled_map _ (markProject_id p) (markProject_mono p) s.tasks tid h
  | cancelTask tid0 =>
    simp only [applyOp, cancel_task, is_cancelled] at h ⊢
    exact lookupCancelled_map _ (markTask_id tid0) (markTask_mono tid0) s.tasks tid h

/-- After `cancel_tasks_by_project p` no task of project `p` is still active:
every previously active task of `p` got marked. -/
lemma activeTasksFor_cancel (p : String) (s : TMState) :
    activeTasksFor p (cancel_tasks_by_project p s).2 = [] := by
  simp only [activeTasksFor, cancel_tasks_by_project]
  rw [List.filter_eq_nil_iff]
  intro t ht
  rcases List.mem_map.mp ht with ⟨u, _, rfl⟩
  by_cases hc : (u.project == p && !u.cancelled) = true
  · rw [if_pos hc]
    simp
  · rw [if_neg hc]
    exact fun habs => hc habs

/-- A cancel call that finds no active task records the project in the
pending-cancellation set. -/
lemma pending_contains_after_cancel (p : String) (s : TMState)
    (h : activeTasksFor p s = []) :
    ((cancel_tasks_by_project p s).2).pending.contains p = true := by
  simp only [cancel_tasks_by_project, h, List.length_nil]
  by_cases hc : p ∈ s.pending
  · simp [hc]
  · simp [hc]

/-! ### Claim theorems for the task registry -/

/-- C1: cancelling a project with zero active tasks, followed immediately by
creating a task for that project, yields a task whose cancelled flag is true
at creation (the pending-cancellation entry pre-cancels it). -/
theorem cancel_then_create_is_cancelled (p : String) (s : TMState)
    (h : activeTasksFor p s = []) :
    is_cancelled (create_task p (cancel_tasks_by_project p s).2).1
                 (create_task p (cancel_tasks_by_project p s).2).2 = true := by
  have hp : p ∈ ((cancel_tasks_by_project p s).2).pending := by
    simpa using pending_contains_after_cancel p s h
  simp [create_task, is_cancelled, lookupCancelled, hp]

/-- Witness for C1 at the concrete project "5" and the empty registry. -/
theorem cancel_then_create_is_cancelled_witness :
    activeTasksFor "5" TMState.init = []
    ∧ is_cancelled (create_task "5" (cancel_tasks_by_project "5" TMState.init).2).1
                   (create_task "5" (cancel_tasks_by_project "5" TMState.init).2).2 = true :=
  ⟨by decide, cancel_then_create_is_cancelled "5" TMState.init (by decide)⟩

/-- C2: over every sequence of create/cancel operations on the registry, a
task's cancelled flag, once true, stays true. -/
theorem cancelled_flag_monotone (ops : List TMOp) (s : TMState) (tid : Nat)
    (hwf : s.wf = true) (h : is_cancelled tid s = true) :
    is_cancelled tid (applyOps s ops) = true := by
  induction ops generalizing s with
  | nil => exact h
  | cons op rest ih =>
    have h1 := applyOp_preserves_cancelled op s tid hwf h
    have h2 := applyOp_preserves_wf op s hwf
    simpa [applyOps, List.foldl_cons] using ih (applyOp s op) h2 h1

/-- Witness for C2: a concretely cancelled task stays cancelled under a
concrete mixed sequence of further operations. -/
theorem cancelled_flag_monotone_witness :
    ((cancel_tasks_by_project "5" (create_task "5" TMState.init).2).2).wf = true
    ∧ is_cancelled 0 (cancel_tasks_by_project "5" (create_task "5" TMState.init).2).2 = true
    ∧ is_cancelled 0 (applyOps (cancel_tasks_by_project "5" (create_task "5" TMState.init).2).2
        [TMOp.create "5", TMOp.cancelProject "7", TMOp.cancelTask 1, TMOp.create "7"]) = true :=
  ⟨by decide, by decide,
   cancelled_flag_monotone [TMOp.create "5", TMOp.cancelProject "7", TMOp.cancelTask 1,
     TMOp.create "7"] _ 0 (by decide) (by decide)⟩

/-- C4 counterexample: project "5" has exactly one active task; the first
cancel returns 1 and leaves the pending set empty, the second cancel returns
0 but DOES insert a pending-cancellation entry for "5", contrary to the
claim that no pending entry is added. -/
theorem double_cancel_adds_pending_cex :
    (cancel_tasks_by_project "5" (create_task "5" TMState.init).2).1 = 1
    ∧ ((cancel_tasks_by_project "5" (create_task "5" TMState.init).2).2).pending = []
    ∧ (cancel_tasks_by_project "5"
        (cancel_tasks_by_project "5" (create_task "5" TMState.init).2).2).1 = 0
    ∧ ((cancel_tasks_by_project "5"
        (cancel_tasks_by_project "5" (create_task "5" TMState.init).2).2).2).pending.contains "5"
        = true := by
  refine ⟨by decide, by decide, by decide, by decide⟩

/-- C4 amended: for every project with exactly one active task,
`cancel_tasks_by_project` returns 1; calling it again returns 0 and inserts
a pending-cancellation entry for that project. -/
theorem cancel_twice_single_task (p : String) (s : TMState)
    (h : (activeTasksFor p s).length = 1) :
    (cancel_tasks_by_project p s).1 = 1
    ∧ (cancel_tasks_by_project p (cancel_tasks_by_project p s).2).1 = 0
    ∧ ((cancel_tasks_by_project p (cancel_tasks_by_project p s).2).2).pending.contains p
        = true := by
  have h2 : activeTasksFor p (cancel_tasks_by_project p s).2 = [] :=
    activeTasksFor_cancel p s
  refine ⟨h, ?_, pending_contains_after_cancel p _ h2⟩
  show (activeTasksFor p (cancel_tasks_by_project p s).2).length = 0
  rw [h2]
  rfl

/-- Witness for the amended C4 at project "5" with one concrete active
task. -/
theorem cancel_twice_single_task_witness :
    (activeTasksFor "5" (create_task "5" TMState.init).2).length = 1
    ∧ (cancel_tasks_by_project "5" (create_task "5" TMState.init).2).1 = 1
    ∧ (cancel_tasks_by_project "5"
        (cancel_tasks_by_project "5" (create_task "5" TMState.init).2).2).1 = 0
    ∧ ((cancel_tasks_by_project "5"
        (cancel_tasks_by_project "5" (create_task "5" TMState.init).2).2).2).pending.contains "5"
        = true :=
  ⟨by decide, cancel_twice_single_task "5" (create_task "5" TMState.init).2 (by decide)⟩

/-- C5: the unauthenticated cancel endpoint answers HTTP 200 with the body
fields status, message, project_id and cancelled_count, where
cancelled_count is the number of active tasks of the project that the call
marked cancelled (all of them: afterwards none is active). -/
theorem cancel_endpoint_response (p : String) (s : TMState) :
    (cancel_tasks_no_auth p s).1 = 200
    ∧ (cancel_tasks_no_auth p s).2.1.status = "success"
    ∧ (cancel_tasks_no_auth p s).2.1.project_id = p
    ∧ (cancel_tasks_no_auth p s).2.1.message
        = "Cancelled " ++ toString (activeTasksFor p s).length ++ " task(s) for project " ++ p
    ∧ (cancel_tasks_no_auth p s).2.1.cancelled_count = (activeTasksFor p s).length
    ∧ activeTasksFor p (cancel_tasks_no_auth p s).2.2 = [] :=
  ⟨rfl, rfl, rfl, rfl, rfl, activeTasksFor_cancel p s⟩

/-! ### Work-loop lemmas -/

/-- The loop's reported total is the total it was started with. -/
lemma runLoopAux_total (cancelledAt : Nat → Bool)
    (call : String → Except String Recommendation) (total : Nat) :
    ∀ (rs : List String) (i calls : Nat) (acc : List Recommendation),
      (runLoopAux cancelledAt call total rs i calls acc).total = total := by
  intro rs
  induction rs with
  | nil => intro i calls acc; rfl
  | cons r rest ih =>
    intro i calls acc
    by_cases hcan : cancelledAt i = true
    · simp [runLoopAux, hcan]
    · have hcan' : cancelledAt i = false := by simpa using hcan
      cases hcall : call r <;> simp [runLoopAux, hcan', hcall, ih]

/-- When the cancellation flag first becomes visible at check `k`, the loop
started at position `i ≤ k` stops at `k`, making `k - i` further calls. -/
lemma runLoopAux_cancelled_at (cancelledAt : Nat → Bool)
    (call : String → Except String Recommendation) (total k : Nat)
    (hc : ∀ j, cancelledAt j = decide (k ≤ j)) :
    ∀ (rs : List String) (i calls : Nat) (acc : List Recommendation),
      i ≤ k → k - i < rs.length →
      (runLoopAux cancelledAt call total rs i calls acc).processed = k
      ∧ (runLoopAux cancelledAt call total rs i calls acc).callsMade = calls + (k - i)
      ∧ (runLoopAux cancelledAt call total rs i calls acc).report
          = "Processed " ++ toString k ++ "/" ++ toString total := by
  intro rs
  induction rs with
  | nil => intro i calls acc _ h2; simp at h2
  | cons r rest ih =>
    intro i calls acc h1 h2
    by_cases hik : i = k
    · subst hik
      have hflag : cancelledAt i = true := by rw [hc]; simp
      simp [runLoopAux, hflag]
    · have hlt : i < k := lt_of_le_of_ne h1 hik
      have hflag : cancelledAt i = false := by rw [hc]; simp; omega
      have h2' : k - (i + 1) < rest.length := by
        simp only [List.length_cons] at h2; omega
      cases hcall : call r with
      | ok rcmd =>
        obtain ⟨ha, hb, hrep⟩ := ih (i + 1) (calls + 1) (rcmd :: acc) hlt h2'
        have hstep : runLoopAux cancelledAt call total (r :: rest) i calls acc
            = runLoopAux cancelledAt call total rest (i + 1) (calls + 1) (rcmd :: acc) := by
          simp [runLoopAux, hflag, hcall]
        rw [hstep, hb]
        exact ⟨ha, by omega, hrep⟩
      | error e =>
        obtain ⟨ha, hb, hrep⟩ := ih (i + 1) (calls + 1) acc hlt h2'
        have hstep : runLoopAux cancelledAt call total (r :: rest) i calls acc
            = runLoopAux cancelledAt call total rest (i + 1) (calls + 1) acc := by
          simp [runLoopAux, hflag, hcall]
        rw [hstep, hb]
        exact ⟨ha, by omega, hrep⟩

/-- Without cancellation the loop reaches the end of the list: every
resource is attempted, the erroring ones are skipped, the successful ones
are collected in order. -/
lemma runLoopAux_no_cancel (cancelledAt : Nat → Bool)
    (call : String → Except String Recommendation) (total : Nat)
    (hnc : ∀ j, cancelledAt j = false) :
    ∀ (rs : List String) (i calls : Nat) (acc : List Recommendation),
      (runLoopAux cancelledAt call total rs i calls acc).results
        = acc.reverse ++ rs.filterMap (fun r => (call r).toOption)
      ∧ (runLoopAux cancelledAt call total rs i calls acc).processed = i + rs.length
      ∧ (runLoopAux cancelledAt call total rs i calls acc).callsMade = calls + rs.length
      ∧ (runLoopAux cancelledAt call total rs i calls acc).report
          = "Completed processing " ++ toString (i + rs.length) ++ "/" ++ toString total
            ++ " VMs successfully" := by
  intro rs
  induction rs with
  | nil => intro i calls acc; simp [runLoopAux]
  | cons r rest ih =>
    intro i calls acc
    have hlen : i + 1 + rest.length = i + (r :: rest).length := by
      simp only [List.length_cons]; omega
    cases hcall : call r with
    | ok rcmd =>
      obtain ⟨h1, h2, h3, h4⟩ := ih (i + 1) (calls + 1) (rcmd :: acc)
      have hstep : runLoopAux cancelledAt call total (r :: rest) i calls acc
          = runLoopAux cancelledAt call total rest (i + 1) (calls + 1) (rcmd :: acc) := by
        simp [runLoopAux, hnc, hcall]
      rw [hstep]
      refine ⟨?_, ?_, ?_, ?_⟩
      · rw [h1]; simp [List.filterMap_cons, hcall, Except.toOption]
      · rw [h2, hlen]
      · rw [h3]; simp only [List.length_cons]; omega
      · rw [h4, hlen]
    | error e =>
      obtain ⟨h1, h2, h3, h4⟩ := ih (i + 1) (calls + 1) acc
      have hstep : runLoopAux cancelledAt call total (r :: rest) i calls acc
          = runLoopAux cancelledAt call total rest (i + 1) (calls + 1) acc := by
        simp [runLoopAux, hnc, hcall]
      rw [hstep]
      refine ⟨?_, ?_, ?_, ?_⟩
      · rw [h1]; simp [List.filterMap_cons, hcall, Except.toOption]
      · rw [h2, hlen]
      · rw [h3]; simp only [List.length_cons]; omega
      · rw [h4, hlen]

/-- An external call that always succeeds collects one result per
resource. -/
lemma filterMap_toOption_eq_map (call : String → Except String Recommendation)
    (g : String → Recommendation) (hok : ∀ r, call r = Except.ok (g r))
    (l : List String) :
    l.filterMap (fun r => (call r).toOption) = l.map g := by
  induction l with
  | nil => rfl
  | cons a l ih =>
    rw [List.filterMap_cons, ih, hok a]
    rfl

/-! ### Claim theorems for the work loop -/

/-- C3: with the cancellation flag first visible at the check before index
`k` (k below the list length N), the loop performs exactly k external calls
(hence at most k) and reports having processed k of N. -/
theorem loop_stops_on_cancellation (cancelledAt : Nat → Bool)
    (call : String → Except String Recommendation) (resources : List String) (k : Nat)
    (hc : ∀ j, cancelledAt j = decide (k ≤ j)) (hk : k < resources.length) :
    (run_llm_vm_all_resources cancelledAt call resources).callsMade = k
    ∧ (run_llm_vm_all_resources cancelledAt call resources).processed = k
    ∧ (run_llm_vm_all_resources cancelledAt call resources).total = resources.length
    ∧ (run_llm_vm_all_resources cancelledAt call resources).report
        = "Processed " ++ toString k ++ "/" ++ toString resources.length := by
  obtain ⟨h1, h2, h3⟩ := runLoopAux_cancelled_at cancelledAt call resources.length k hc
    resources 0 0 [] (Nat.zero_le k) (by simpa using hk)
  exact ⟨by simpa using h2, h1,
    runLoopAux_total cancelledAt call resources.length resources 0 0 [], h3⟩

/-- Witness for C3: 3 resources, cancellation first visible before index 1:
one call made, report "Processed 1/3". -/
theorem loop_stops_on_cancellation_witness :
    (∀ j : Nat, (fun j => decide (1 ≤ j)) j = decide (1 ≤ j))
    ∧ 1 < (["vm-a", "vm-b", "vm-c"] : List String).length
    ∧ ((run_llm_vm_all_resources (fun j => decide (1 ≤ j))
          (fun _ => Except.ok 0) ["vm-a", "vm-b", "vm-c"]).callsMade = 1
      ∧ (run_llm_vm_all_resources (fun j => decide (1 ≤ j))
          (fun _ => Except.ok 0) ["vm-a", "vm-b", "vm-c"]).processed = 1
      ∧ (run_llm_vm_all_resources (fun j => decide (1 ≤ j))
          (fun _ => Except.ok 0) ["vm-a", "vm-b", "vm-c"]).total
          = (["vm-a", "vm-b", "vm-c"] : List String).length
      ∧ (run_llm_vm_all_resources (fun j => decide (1 ≤ j))
          (fun _ => Except.ok 0) ["vm-a", "vm-b", "vm-c"]).report
          = "Processed " ++ toString 1 ++ "/"
            ++ toString (["vm-a", "vm-b", "vm-c"] : List String).length) :=
  ⟨fun _ => rfl, by decide,
   loop_stops_on_cancellation (fun j => decide (1 ≤ j)) (fun _ => Except.ok 0)
     ["vm-a", "vm-b", "vm-c"] 1 (fun _ => rfl) (by decide)⟩

/-- C9: without cancellation the loop attempts every resource: per-resource
errors are skipped (the failed resource is simply missing from the results)
and the loop runs to the end, reporting full completion; only cancellation
(C3's theorem) stops it early. -/
theorem loop_skips_errors (cancelledAt : Nat → Bool)
    (call : String → Except String Recommendation) (resources : List String)
    (hnc : ∀ j, cancelledAt j = false) :
    (run_llm_vm_all_resources cancelledAt call resources).results
      = resources.filterMap (fun r => (call r).toOption)
    ∧ (run_llm_vm_all_resources cancelledAt call resources).processed = resources.length
    ∧ (run_llm_vm_all_resources cancelledAt call resources).callsMade = resources.length
    ∧ (run_llm_vm_all_resources cancelledAt call resources).report
        = "Completed processing " ++ toString resources.length ++ "/"
          ++ toString resources.length ++ " VMs successfully" := by
  obtain ⟨h1, h2, h3, h4⟩ := runLoopAux_no_cancel cancelledAt call resources.length hnc
    resources 0 0 []
  exact ⟨by simpa using h1, by simpa using h2, by simpa using h3, by simpa using h4⟩

/-- Witness for C9: the call for "vm-b" errors; the loop still attempts all 3
resources and collects the other two results. -/
theorem loop_skips_errors_witness :
    (∀ j : Nat, (fun _ => false) j = false)
    ∧ ((run_llm_vm_all_resources (fun _ => false)
          (fun r => if r == "vm-b" then Except.error "boom" else Except.ok 7)
          ["vm-a", "vm-b", "vm-c"]).results
        = (["vm-a", "vm-b", "vm-c"] : List String).filterMap
            (fun r => ((if r == "vm-b" then Except.error "boom"
              else Except.ok 7) : Except String Recommendation).toOption)
      ∧ (run_llm_vm_all_resources (fun _ => false)
          (fun r => if r == "vm-b" then Except.error "boom" else Except.ok 7)
          ["vm-a", "vm-b", "vm-c"]).processed
          = (["vm-a", "vm-b", "vm-c"] : List String).length
      ∧ (run_llm_vm_all_resources (fun _ => false)
          (fun r => if r == "vm-b" then Except.error "boom" else Except.ok 7)
          ["vm-a", "vm-b", "vm-c"]).callsMade
          = (["vm-a", "vm-b", "vm-c"] : List String).length
      ∧ (run_llm_vm_all_resources (fun _ => false)
          (fun r => if r == "vm-b" then Except.error "boom" else Except.ok 7)
          ["vm-a", "vm-b", "vm-c"]).report
          = "Completed processing " ++ toString (["vm-a", "vm-b", "vm-c"] : List String).length
            ++ "/" ++ toString (["vm-a", "vm-b", "vm-c"] : List String).length
            ++ " VMs successfully") :=
  ⟨fun _ => rfl,
   loop_skips_errors (fun _ => false)
     (fun r => if r == "vm-b" then Except.error "boom" else Except.ok 7)
     ["vm-a", "vm-b", "vm-c"] (fun _ => rfl)⟩

/-- C8: without cancellation and with a succeeding external call, supplying a
resource id yields a single recommendation object and supplying none yields
an array with one recommendation per resource. -/
theorem single_vs_array (cancelledAt : Nat → Bool)
    (call : String → Except String Recommendation) (g : String → Recommendation)
    (resources : List String) (rid : String)
    (hnc : ∀ j, cancelledAt j = false) (hok : ∀ r, call r = Except.ok (g r)) :
    run_llm_analysis cancelledAt call (some rid) resources
      = Except.ok (AnalysisResult.single (g rid))
    ∧ run_llm_analysis cancelledAt call none resources
      = Except.ok (AnalysisResult.multiple (resources.map g)) := by
  constructor
  · simp [run_llm_analysis, hnc, hok]
  · have h := (runLoopAux_no_cancel cancelledAt call resources.length hnc
      resources 0 0 []).1
    simp only [run_llm_analysis, run_llm_vm_all_resources]
    rw [show (runLoopAux cancelledAt call resources.length resources 0 0 []).results
        = resources.map g by
      rw [h, filterMap_toOption_eq_map call g hok resources]; simp]

/-- Witness for C8 at two concrete resources and a constant call. -/
theorem single_vs_array_witness :
    (∀ j : Nat, (fun _ => false) j = false)
    ∧ (∀ r : String, (fun _ => (Except.ok 7 : Except String Recommendation)) r
        = Except.ok ((fun _ => 7) r))
    ∧ (run_llm_analysis (fun _ => false) (fun _ => Except.ok 7)
        (some "sa-x") ["sa-a", "sa-b"]
        = Except.ok (AnalysisResult.single ((fun _ => 7) "sa-x"))
      ∧ run_llm_analysis (fun _ => false) (fun _ => Except.ok 7)
        none ["sa-a", "sa-b"]
        = Except.ok (AnalysisResult.multiple ((["sa-a", "sa-b"] : List String).map
            (fun _ => 7)))) :=
  ⟨fun _ => rfl, fun _ => rfl,
   single_vs_array (fun _ => false) (fun _ => Except.ok 7) (fun _ => 7)
     ["sa-a", "sa-b"] "sa-x" (fun _ => rfl) (fun _ => rfl)⟩

/-! ### Claim theorems for the frontend page -/

/-- C6: a response whose generation no longer equals the current generation
counter is discarded by handleFetch: it changes neither the recommendations
state nor the error state nor the loading state. -/
theorem stale_response_discarded (thisGeneration : Nat)
    (result : Except String FetchResult) (ui : UIState)
    (h : ui.generation ≠ thisGeneration) :
    (handleFetchResponse thisGeneration result ui).recommendations = ui.recommendations
    ∧ (handleFetchResponse thisGeneration result ui).error = ui.error
    ∧ (handleFetchResponse thisGeneration result ui).isLoading = ui.isLoading := by
  have hb : (ui.generation != thisGeneration) = true := by simpa using h
  cases result <;> simp [handleFetchResponse, hb]

/-- Witness for C6: a successful response for generation 1 arriving while the
counter is at 2 leaves the state untouched. -/
theorem stale_response_discarded_witness :
    sampleUI.generation ≠ 1
    ∧ ((handleFetchResponse 1 (Except.ok ⟨[7], some "t-1"⟩) sampleUI).recommendations
        = sampleUI.recommendations
      ∧ (handleFetchResponse 1 (Except.ok ⟨[7], some "t-1"⟩) sampleUI).error = sampleUI.error
      ∧ (handleFetchResponse 1 (Except.ok ⟨[7], some "t-1"⟩) sampleUI).isLoading
        = sampleUI.isLoading) :=
  ⟨by decide, stale_response_discarded 1 (Except.ok ⟨[7], some "t-1"⟩) sampleUI (by decide)⟩

/-- C7: when the cancel request fails, the failure is caught inside
cancelBackendTask (which returns the logged error instead of throwing) and
handleReset still clears all local UI state: filters reset, recommendations
emptied, index, error and loading cleared. -/
theorem reset_clears_ui_on_cancel_failure (o : FetchOutcome)
    (resourceOptions : List String) (projectId : String) (ui : UIState)
    (e : String) (hfail : tryCancel o = Except.error e) :
    cancelBackendTask o = some e
    ∧ (handleReset o resourceOptions projectId ui).filters = defaultFilters resourceOptions
    ∧ (handleReset o resourceOptions projectId ui).recommendations = []
    ∧ (handleReset o resourceOptions projectId ui).currentIndex = 0
    ∧ (handleReset o resourceOptions projectId ui).error = none
    ∧ (handleReset o resourceOptions projectId ui).isLoading = false := by
  refine ⟨by simp [cancelBackendTask, hfail], ?_, ?_, ?_, ?_, ?_⟩ <;>
    · simp only [handleReset]
      try (split <;> rfl)

/-- Witness for C7 at a concrete network failure: the state still comes out
cleared. -/
theorem reset_clears_ui_on_cancel_failure_witness :
    tryCancel (FetchOutcome.networkError "Failed to fetch")
      = Except.error "Failed to fetch"
    ∧ (cancelBackendTask (FetchOutcome.networkError "Failed to fetch")
        = some "Failed to fetch"
      ∧ (handleReset (FetchOutcome.networkError "Failed to fetch")
          ["Virtual Machine"] "5" sampleUI).filters = defaultFilters ["Virtual Machine"]
      ∧ (handleReset (FetchOutcome.networkError "Failed to fetch")
          ["Virtual Machine"] "5" sampleUI).recommendations = []
      ∧ (handleReset (FetchOutcome.networkError "Failed to fetch")
          ["Virtual Machine"] "5" sampleUI).currentIndex = 0
      ∧ (handleReset (FetchOutcome.networkError "Failed to fetch")
          ["Virtual Machine"] "5" sampleUI).error = none
      ∧ (handleReset (FetchOutcome.networkError "Failed to fetch")
          ["Virtual Machine"] "5" sampleUI).isLoading = false) :=
  ⟨rfl,
   reset_clears_ui_on_cancel_failure (FetchOutcome.networkError "Failed to fetch")
     ["Virtual Machine"] "5" sampleUI "Failed to fetch" rfl⟩

/-- One navigation action keeps a valid index in bounds. -/
lemma navStep_lt (len idx : Nat) (op : NavOp) (hlen : 0 < len) (hidx : idx < len)
    (hop : navOpValid len op = true) : navStep len idx op < len := by
  cases op with
  | previous => simp only [navStep]; omega
  | next => simp only [navStep]; omega
  | dot i =>
    simp only [navOpValid, decide_eq_true_eq] at hop
    simp only [navStep]
    split
    · exact hidx
    · exact hop

/-- A sequence of page-producible navigation actions keeps the index in
bounds. -/
lemma applyNavOps_lt (len : Nat) (hlen : 0 < len) :
    ∀ (ops : List NavOp) (idx : Nat), idx < len →
      (∀ op ∈ ops, navOpValid len op = true) → applyNavOps len idx ops < len := by
  intro ops
  induction ops with
  | nil => intro idx hidx _; exact hidx
  | cons op rest ih =>
    intro idx hidx hops
    have h1 := navStep_lt len idx op hlen hidx (hops op (List.mem_cons_self op rest))
    have h2 := ih (navStep len idx op) h1 (fun o ho => hops o (List.mem_cons_of_mem op ho))
    simpa [applyNavOps, List.foldl_cons] using h2

/-- C10: for a non-empty recommendations list of length L, any sequence of
Previous/Next/dot actions the page can produce keeps the displayed index
within 0..L-1; Previous clamps at 0 and Next clamps at L-1. -/
theorem carousel_index_in_bounds (len : Nat) (idx : Nat) (ops : List NavOp)
    (hlen : 0 < len) (hidx : idx < len)
    (hops : ∀ op ∈ ops, navOpValid len op = true) :
    applyNavOps len idx ops < len
    ∧ navStep len 0 NavOp.previous = 0
    ∧ navStep len (len - 1) NavOp.next = len - 1 := by
  refine ⟨applyNavOps_lt len hlen ops idx hidx hops, rfl, ?_⟩
  simp only [navStep]
  omega

/-- Witness for C10: three recommendations, a concrete action sequence. -/
theorem carousel_index_in_bounds_witness :
    (0 : Nat) < 3 ∧ (0 : Nat) < 3
    ∧ (∀ op ∈ [NavOp.next, NavOp.dot 2, NavOp.previous], navOpValid 3 op = true)
    ∧ (applyNavOps 3 0 [NavOp.next, NavOp.dot 2, NavOp.previous] < 3
      ∧ navStep 3 0 NavOp.previous = 0
      ∧ navStep 3 (3 - 1) NavOp.next = 3 - 1) :=
  ⟨by decide, by decide, by decide,
   carousel_index_in_bounds 3 0 [NavOp.next, NavOp.dot 2, NavOp.previous]
     (by decide) (by decide) (by decide)⟩

end Demo3
